import Mathlib

/-!
Verification of the output-sink and remote-execution layer of virtnbdbackup
(`libvirtnbdbackup/outputhelper/outputhelper.py` and
`libvirtnbdbackup/sshutil/sshutil.py`) against its specification.

Filesystem paths are modelled as lists of path components; the local
filesystem as an association list from paths to nodes (regular file with
byte content, or directory).  Bytes are modelled as `Nat`.
-/

/-- A filesystem node: a regular file with its byte content, or a directory. -/
inductive FNode
  | file (content : List Nat)
  | dir
deriving DecidableEq

/-- A path, as a list of components (so `/d/f` is `["d", "f"]`). -/
abbrev FPath := List String

/-- The local filesystem: an association list from paths to nodes. -/
abbrev FS := List (FPath × FNode)

/-- Look a path up in the filesystem. -/
def fsGet (fs : FS) (p : FPath) : Option FNode :=
  match fs with
  | [] => none
  | (q, n) :: rest => if q = p then some n else fsGet rest p

/-- Bind a path to a node, replacing any earlier binding. -/
def fsSet (fs : FS) (p : FPath) (n : FNode) : FS :=
  match fs with
  | [] => [(p, n)]
  | (q, m) :: rest => if q = p then (q, n) :: rest else (q, m) :: fsSet rest p n

/-- Python `os.path.exists`. -/
def osPathExists (fs : FS) (p : FPath) : Bool :=
  (fsGet fs p).isSome

/-- Python `os.path.isdir`. -/
def osPathIsdir (fs : FS) (p : FPath) : Bool :=
  fsGet fs p = some FNode.dir

/-- Helper for `osMakedirs`: create each missing component of the path in
turn; an ancestor that exists as a regular file makes creation fail
(Python raises an `OSError`, `NotADirectoryError`). -/
def mkdirsAux (fs : FS) (built : FPath) (rest : List String) : Except String FS :=
  match rest with
  | [] => Except.ok fs
  | c :: cs =>
    let q := built ++ [c]
    match fsGet fs q with
    | some FNode.dir => mkdirsAux fs q cs
    | some (FNode.file _) => Except.error "NotADirectoryError"
    | none => mkdirsAux (fsSet fs q FNode.dir) q cs

/-- Python `os.makedirs(p)`: creates the directory and all missing parents;
raises an `OSError` if the leaf already exists or an ancestor is a file. -/
def osMakedirs (fs : FS) (p : FPath) : Except String FS :=
  if osPathExists fs p then Except.error "FileExistsError"
  else mkdirsAux fs [] p

/-- The exceptions of `libvirtnbdbackup.outputhelper.exceptions`, raised by
the output helper.  Modelled from the spec: the exceptions module is not in
the sources; the spec names the two error kinds `CreateDirectoryError`
(`OutputCreateDirectory`) and `OpenError` (`OutputOpenException`), each
carrying a message. -/
inductive OutputException
  | createDirectory (msg : String)
  | openException (msg : String)
deriving DecidableEq

/-- Python built-in `open(path, "wb")`: fails if the path is an existing
directory or its parent directory does not exist (the root `[]` always
exists); otherwise creates the file, truncating any existing content. -/
def osOpenWb (fs : FS) (p : FPath) : Except String FS :=
  match fsGet fs p with
  | some FNode.dir => Except.error "IsADirectoryError"
  | _ =>
    if p.dropLast = [] ∨ osPathIsdir fs p.dropLast then
      Except.ok (fsSet fs p (FNode.file []))
    else Except.error "FileNotFoundError"

/-- The state of an `outputHelper.Directory` instance: its two attributes
`targetDir` and `fileHandle` (the handle remembers which file it writes). -/
structure DirectoryState where
  targetDir : Option FPath
  fileHandle : Option FPath
deriving DecidableEq

/-- `Directory._makeDir` (outputhelper.py lines 43-56): if the target exists
but is not a directory, raise `OutputCreateDirectory`; if it does not exist,
`os.makedirs` it, turning any `OSError` into `OutputCreateDirectory`. -/
def Directory.makeDir (fs : FS) (targetDir : FPath) : Except OutputException FS :=
  if osPathExists fs targetDir ∧ ¬ osPathIsdir fs targetDir then
    Except.error (OutputException.createDirectory
      "Specified target is a file, not a directory")
  else if ¬ osPathExists fs targetDir then
    match osMakedirs fs targetDir with
    | Except.ok fs2 => Except.ok fs2
    | Except.error e =>
      Except.error (OutputException.createDirectory
        ("Cant create target directory:" ++ e))
  else Except.ok fs

/-- `Directory.__init__` (outputhelper.py lines 37-41): store the target,
clear the handle, and call `_makeDir` only when the target is not `None`. -/
def Directory.init (targetDir : Option FPath) (fs : FS) :
    Except OutputException (DirectoryState × FS) :=
  match targetDir with
  | none => Except.ok (⟨none, none⟩, fs)
  | some d =>
    match Directory.makeDir fs d with
    | Except.ok fs2 => Except.ok (⟨some d, none⟩, fs2)
    | Except.error e => Except.error e

/-- The default `mode` argument of `Directory.open` (outputhelper.py line 58). -/
def Directory.defaultMode : String := "wb"

/-- Message built by `Directory.open` for a failed OS-level open. -/
def Directory.openErrMsg (e : String) : String :=
  "Unable to open target file: " ++ e

/-- `Directory.open(targetFile)` (outputhelper.py lines 58-67), in the
default binary-write mode: calls the built-in `open` on `targetFile`
exactly as given (the stored `targetDir` is not consulted), stores the
handle, and wraps any `OSError` in `OutputOpenException`. -/
def Directory.openFile (st : DirectoryState) (fs : FS) (targetFile : FPath) :
    Except OutputException (DirectoryState × FS) :=
  match osOpenWb fs targetFile with
  | Except.ok fs2 => Except.ok ({ st with fileHandle := some targetFile }, fs2)
  | Except.error e => Except.error (OutputException.openException (Directory.openErrMsg e))

/-- `Directory.write(data)` (outputhelper.py lines 69-71): delegate to the
stored handle; returns the byte count, `none` when there is no open handle
or the handle's file is gone (Python would raise). -/
def Directory.write (st : DirectoryState) (fs : FS) (data : List Nat) :
    Option (FS × Nat) :=
  match st.fileHandle with
  | none => none
  | some p =>
    match fsGet fs p with
    | some (FNode.file c) => some (fsSet fs p (FNode.file (c ++ data)), data.length)
    | _ => none

/-- A sequence of `Directory.write` calls against the same handle. -/
def Directory.writeAll (st : DirectoryState) (fs : FS) (ws : List (List Nat)) :
    Option FS :=
  match ws with
  | [] => some fs
  | d :: rest =>
    match Directory.write st fs d with
    | some (fs2, _) => Directory.writeAll st fs2 rest
    | none => none

/-- `Directory.flush` (outputhelper.py lines 73-75) delegates to the file
handle's `flush` with no exception handling of its own, so the underlying
result — success or OS error — is returned to the caller unchanged. -/
def Directory.flushWrapper (r : Except String Unit) : Except String Unit := r

/-- The methods an output-sink backend class defines. -/
inductive Method
  | openM
  | writeM
  | flushM
  | closeM
deriving DecidableEq, BEq

/-- The methods defined by `outputHelper.Directory` (outputhelper.py
lines 58-79): `open`, `write`, `flush`, `close`. -/
def Directory.methods : List Method :=
  [Method.openM, Method.writeM, Method.flushM, Method.closeM]

/-- The methods defined by `outputHelper.Zip` (outputhelper.py lines 99-127):
`open`, `close`, `write` — the class defines no `flush` method. -/
def Zip.methods : List Method :=
  [Method.openM, Method.closeM, Method.writeM]

/-- The state of an `outputHelper.Zip` instance: the members already written
to the archive stream (name and stored bytes, in order) and the member
stream currently open, if any.  Members are `ZIP_STORED` (uncompressed), so
a member's stored bytes are exactly the bytes written to it, and reading a
finalized member returns them verbatim. -/
structure ZipState where
  members : List (String × List Nat)
  current : Option (String × List Nat)
deriving DecidableEq

/-- `Zip.open(fileName)` (outputhelper.py lines 99-118): registers a new
member of that name (stored, second-resolution timestamp, force_zip64) and
opens its stream with empty content so far. -/
def Zip.openMember (st : ZipState) (name : String) : ZipState :=
  { st with current := some (name, []) }

/-- `Zip.write(data)` (outputhelper.py lines 125-127): appends to the open
member stream, returning the byte count; `none` when no member is open
(Python would raise). -/
def Zip.write (st : ZipState) (data : List Nat) : Option (ZipState × Nat) :=
  match st.current with
  | some (n, c) => some ({ st with current := some (n, c ++ data) }, data.length)
  | none => none

/-- A sequence of `Zip.write` calls against the open member stream. -/
def Zip.writeAll (st : ZipState) (ws : List (List Nat)) : Option ZipState :=
  match ws with
  | [] => some st
  | d :: rest =>
    match Zip.write st d with
    | some (st2, _) => Zip.writeAll st2 rest
    | none => none

/-- `Zip.close` (outputhelper.py lines 120-122): finalizes the open member's
record and appends it to the archive's member list; `none` when no member is
open (Python would raise). -/
def Zip.closeMember (st : ZipState) : Option ZipState :=
  match st.current with
  | some (n, c) => some ⟨st.members ++ [(n, c)], none⟩
  | none => none

/-- Find the first member of the given name in an archive's member list. -/
def zfind (ms : List (String × List Nat)) (name : String) : Option (List Nat) :=
  match ms with
  | [] => none
  | (n, c) :: rest => if n = name then some c else zfind rest name

/-- Reading a finalized member back from the archive: `ZIP_STORED` members
hold their bytes verbatim, so this is a lookup in the member list. -/
def Zip.readMember (st : ZipState) (name : String) : Option (List Nat) :=
  zfind st.members name

/-- Concatenation of a sequence of byte chunks. -/
def catBytes : List (List Nat) → List Nat
  | [] => []
  | x :: xs => x ++ catBytes xs

/-!
The remote-execution client (`libvirtnbdbackup/sshutil/sshutil.py`).

The remote side is modelled as an oracle `RemoteWorld` giving, for each
command string, the triple the secure-shell library's `exec_command`
produces, and for each stat/get/put request its outcome.  An outcome is
`none` for success or `some e` for the Python exception `e` the library
raises.
-/

/-- The Python exceptions the secure-shell library can raise during an SFTP
operation: `paramiko.SSHException` (protocol/session failures) or
`IOError`/`OSError` (the translation of SFTP status errors such as a
missing file or denied permission). -/
inductive PyError
  | sshExc (msg : String)
  | ioError (msg : String)
deriving DecidableEq

/-- What one remote command execution produces: exit status, raw standard
error, raw standard output. -/
structure ExecTriple where
  ret : Nat
  errRaw : String
  outRaw : String
deriving DecidableEq

/-- The oracle for the remote host reached through the session. -/
structure RemoteWorld where
  exec : String → ExecTriple
  statRes : String → Option PyError
  getRes : String → String → Option PyError
  putRes : String → String → Option PyError

/-- `processInfo` of `libvirtnbdbackup.common.common`.  Modelled from the
spec: the module is not in the sources; the spec defines `ProcessResult` as
`{pid: optional string, logFile: optional path, stderr: string, stdout:
string}`, built by `run` as `processInfo(pid, logFile, err, out)`. -/
structure processInfo where
  pid : Option String
  logFile : Option String
  err : String
  out : String
deriving DecidableEq

/-- `Client._execute(cmd)` (sshutil.py lines 103-108): run the command over
the session and return exit status, stripped stderr and stripped stdout. -/
def Client.execute (w : RemoteWorld) (cmd : String) : Nat × String × String :=
  let t := w.exec cmd
  (t.ret, t.errRaw.trim, t.outRaw.trim)

/-- The message of the `sshutilError` that `run` raises on a non-zero exit
status (sshutil.py lines 119-121). -/
def Client.runErrMsg (cmd err : String) : String :=
  "Error during remote command: [" ++ cmd ++ "]: [" ++ err ++ "]"

/-- `Client.run(cmd, pidFile, logFile)` (sshutil.py lines 110-129): execute
the command; on a non-zero exit status raise `sshutilError` carrying the
command and the captured stderr — or, when a log file was given, the output
of a second execution of `cat logFile` in its place.  On success, when a
pid file was given, fetch its contents with a second execution of
`cat pidFile` and return them as the pid; otherwise the pid stays `None`. -/
def Client.run (w : RemoteWorld) (cmd : String) (pidFile logFile : Option String) :
    Except String processInfo :=
  let r := Client.execute w cmd
  if r.1 ≠ 0 then
    let err2 := match logFile with
      | some lf => (Client.execute w ("cat " ++ lf)).2.2
      | none => r.2.1
    Except.error (Client.runErrMsg cmd err2)
  else
    let pid : Option String := match pidFile with
      | some pf => some (Client.execute w ("cat " ++ pf)).2.2
      | none => none
    Except.ok ⟨pid, logFile, r.2.1, r.2.2⟩

/-- `Client.exists(filepath)` (sshutil.py lines 73-81): stat the path over a
fresh SFTP sub-channel; `IOError` is caught and collapsed into `false`; any
other exception (e.g. a `paramiko.SSHException` from a broken session) is
not caught and propagates. -/
def Client.existsRemote (w : RemoteWorld) (filepath : String) :
    Except PyError Bool :=
  match w.statRes filepath with
  | none => Except.ok true
  | some (PyError.ioError _) => Except.ok false
  | some e => Except.error e

/-- The warning message logged by `copyFrom`/`copyTo` on a caught
`SSHException` (sshutil.py lines 90-91 and 100-101). -/
def Client.copyWarnMsg (m : String) : String :=
  "Error during file copy: [" ++ m ++ "]"

/-- `Client.copyFrom(filepath, localpath)` (sshutil.py lines 83-91): SFTP
`get` over a fresh sub-channel; only `SSHException` is caught (logged as a
warning, call returns normally); any other exception — in particular the
`IOError`s the library raises for SFTP status errors — propagates.  The
successful value is the list of warnings logged. -/
def Client.copyFrom (w : RemoteWorld) (filepath localpath : String) :
    Except PyError (List String) :=
  match w.getRes filepath localpath with
  | none => Except.ok []
  | some (PyError.sshExc m) => Except.ok [Client.copyWarnMsg m]
  | some e => Except.error e

/-- `Client.copyTo(localpath, remotepath)` (sshutil.py lines 93-101): SFTP
`put` over a fresh sub-channel; same exception handling as `copyFrom`. -/
def Client.copyTo (w : RemoteWorld) (localpath remotepath : String) :
    Except PyError (List String) :=
  match w.putRes localpath remotepath with
  | none => Except.ok []
  | some (PyError.sshExc m) => Except.ok [Client.copyWarnMsg m]
  | some e => Except.error e

/-- The value the source passes as the `timeout` argument of the library's
`connect` call (sshutil.py line 58).  The library (`paramiko`) defines this
parameter in seconds. -/
def Client.connectTimeout : Nat := 5000

/-- The attributes `Client.__init__` stores on the instance (sshutil.py
lines 39-45): no SFTP sub-channel is ever stored. -/
def Client.instanceFields : List String :=
  ["client", "host", "user", "copy", "connection"]

/-!
SFTP sub-channel derivation (claim C9).  The `sftp` property (sshutil.py
lines 68-71) calls `SFTPClient.from_transport(self.connection.get_transport())`
on every access, so each access yields a brand-new sub-channel; the state
below tracks only the next fresh channel identifier, mirroring that the
instance stores no channel.
-/

/-- Channel-allocation state: the identifier the next `sftp` property access
will produce.  Nothing else is stored, mirroring the source. -/
structure SftpState where
  nextChan : Nat
deriving DecidableEq

/-- One access of the `sftp` property (sshutil.py lines 68-71): derive a
brand-new sub-channel from the session's transport. -/
def sftpProp (s : SftpState) : Nat × SftpState :=
  (s.nextChan, ⟨s.nextChan + 1⟩)

/-- The client operations that touch the SFTP sub-channel. -/
inductive SftpCall
  | statCall
  | getCall
  | putCall
  | disconnectCall
deriving DecidableEq

/-- How many `sftp` property accesses each operation performs: `exists`,
`copyFrom` and `copyTo` access it once; `disconnect` (sshutil.py
lines 131-136) accesses it twice — once for the `if self.sftp:` truth test
and once for `self.sftp.close()`. -/
def callWidth : SftpCall → Nat
  | SftpCall.disconnectCall => 2
  | _ => 1

/-- The sub-channels one operation derives, in order, with the state after. -/
def callChans : SftpCall → SftpState → List Nat × SftpState
  | SftpCall.statCall, s => let (c, s2) := sftpProp s; ([c], s2)
  | SftpCall.getCall, s => let (c, s2) := sftpProp s; ([c], s2)
  | SftpCall.putCall, s => let (c, s2) := sftpProp s; ([c], s2)
  | SftpCall.disconnectCall, s =>
    let (c1, s2) := sftpProp s
    let (c2, s3) := sftpProp s2
    ([c1, c2], s3)

/-- The sub-channels a sequence of operations derives, one list per call. -/
def runCalls : List SftpCall → SftpState → List (List Nat) × SftpState
  | [], s => ([], s)
  | c :: cs, s =>
    let (is, s2) := callChans c s
    let (rest, s3) := runCalls cs s2
    (is :: rest, s3)

/-- Total number of `sftp` property accesses in a sequence of operations. -/
def chanCount : List SftpCall → Nat
  | [] => 0
  | c :: cs => callWidth c + chanCount cs

/-- Success test for an `Except` value. -/
def okB {ε α : Type} : Except ε α → Bool
  | Except.ok _ => true
  | Except.error _ => false

/-- A concrete remote host used to exercise `run`: `false` exits with
status 1 and `boom` on stderr, the two `cat` fetches deliver a log line and
a pid with surrounding whitespace, everything else succeeds. -/
def wRun : RemoteWorld where
  exec := fun c =>
    if c = "false" then ⟨1, "boom", ""⟩
    else if c = "cat /tmp/job.log" then ⟨0, "", "logged failure"⟩
    else if c = "cat /tmp/job.pid" then ⟨0, "", " 4242 "⟩
    else ⟨0, "", "ok"⟩
  statRes := fun _ => none
  getRes := fun _ _ => none
  putRes := fun _ _ => none

/-- A concrete remote host whose SFTP transfers fail with `IOError` (the
exception the library raises for SFTP status errors). -/
def wCopyIO : RemoteWorld where
  exec := fun _ => ⟨0, "", ""⟩
  statRes := fun _ => none
  getRes := fun _ _ => some (PyError.ioError "No such file")
  putRes := fun _ _ => some (PyError.ioError "Permission denied")

/-- A concrete remote host whose SFTP transfers fail with `SSHException`
and whose stat fails with `IOError`. -/
def wCopySSH : RemoteWorld where
  exec := fun _ => ⟨0, "", ""⟩
  statRes := fun _ => some (PyError.ioError "nf")
  getRes := fun _ _ => some (PyError.sshExc "EOF during negotiation")
  putRes := fun _ _ => some (PyError.sshExc "EOF during negotiation")

/-- A concrete remote host whose stat fails with `SSHException` (a dropped
session), an exception `exists` does not catch. -/
def wStatSSH : RemoteWorld where
  exec := fun _ => ⟨0, "", ""⟩
  statRes := fun _ => some (PyError.sshExc "Server connection dropped")
  getRes := fun _ _ => none
  putRes := fun _ _ => none

/-!
Helper lemmas about the filesystem and archive models.
-/

theorem fsGet_fsSet_same (fs : FS) (p : FPath) (n : FNode) :
    fsGet (fsSet fs p n) p = some n := by
  induction fs with
  | nil => simp [fsSet, fsGet]
  | cons hd tl ih =>
    by_cases h : hd.1 = p
    · simp [fsSet, fsGet, h]
    · simp [fsSet, fsGet, h, ih]

theorem fsGet_fsSet_other (fs : FS) (p q : FPath) (n : FNode) (h : q ≠ p) :
    fsGet (fsSet fs p n) q = fsGet fs q := by
  induction fs with
  | nil => simp [fsSet, fsGet, Ne.symm h]
  | cons hd tl ih =>
    by_cases hk : hd.1 = p
    · subst hk
      simp [fsSet, fsGet, Ne.symm h]
    · simp [fsSet, fsGet, hk, ih]

theorem osOpenWb_ok (fs : FS) (p : FPath) (fs2 : FS)
    (h : osOpenWb fs p = Except.ok fs2) :
    fs2 = fsSet fs p (FNode.file []) := by
  unfold osOpenWb at h
  split at h
  · exact absurd h (by simp)
  · split at h
    · injection h with h2
      exact h2.symm
    · exact absurd h (by simp)

theorem writeAll_content (ws : List (List Nat)) (st : DirectoryState) (p : FPath)
    (hh : st.fileHandle = some p) :
    ∀ (fs : FS) (c : List Nat), fsGet fs p = some (FNode.file c) →
    ∃ fs3, Directory.writeAll st fs ws = some fs3
      ∧ fsGet fs3 p = some (FNode.file (c ++ catBytes ws)) := by
  induction ws with
  | nil =>
    intro fs c hc
    exact ⟨fs, rfl, by simpa [catBytes] using hc⟩
  | cons d rest ih =>
    intro fs c hc
    have hw : Directory.write st fs d
        = some (fsSet fs p (FNode.file (c ++ d)), d.length) := by
      simp [Directory.write, hh, hc]
    obtain ⟨fs3, h1, h2⟩ :=
      ih (fsSet fs p (FNode.file (c ++ d))) (c ++ d) (fsGet_fsSet_same fs p _)
    refine ⟨fs3, ?_, ?_⟩
    · simp [Directory.writeAll, hw, h1]
    · simpa [catBytes, List.append_assoc] using h2

theorem zipWriteAll_content (ws : List (List Nat)) :
    ∀ (st : ZipState) (n : String) (c : List Nat), st.current = some (n, c) →
    Zip.writeAll st ws = some ⟨st.members, some (n, c ++ catBytes ws)⟩ := by
  induction ws with
  | nil =>
    intro st n c h
    cases st
    simp_all [Zip.writeAll, catBytes]
  | cons d rest ih =>
    intro st n c h
    have hw : Zip.write st d
        = some ({ st with current := some (n, c ++ d) }, d.length) := by
      simp [Zip.write, h]
    have h2 := ih { st with current := some (n, c ++ d) } n (c ++ d) rfl
    calc Zip.writeAll st (d :: rest)
        = Zip.writeAll { st with current := some (n, c ++ d) } rest := by
          rw [Zip.writeAll, hw]
      _ = some ⟨st.members, some (n, (c ++ d) ++ catBytes rest)⟩ := h2
      _ = some ⟨st.members, some (n, c ++ catBytes (d :: rest))⟩ := by
          simp [catBytes, List.append_assoc]

theorem zfind_append_self (ms : List (String × List Nat)) (name : String)
    (v : List Nat) (h : zfind ms name = none) :
    zfind (ms ++ [(name, v)]) name = some v := by
  induction ms with
  | nil => simp [zfind]
  | cons hd tl ih =>
    by_cases hn : hd.1 = name
    · simp [zfind, hn] at h
    · simp [zfind, hn] at h ⊢
      exact ih h

theorem range'_split : ∀ (m s n : Nat),
    List.range' s (m + n) = List.range' s m ++ List.range' (s + m) n
  | 0, s, n => by simp
  | (k + 1), s, n => by
    have h1 : (k + 1) + n = (k + n) + 1 := by omega
    rw [h1]
    show s :: List.range' (s + 1) (k + n) = (s :: List.range' (s + 1) k) ++ _
    rw [range'_split k (s + 1) n]
    simp [Nat.add_assoc, Nat.add_comm 1 k]

theorem callChans_eq (c : SftpCall) (s : SftpState) :
    callChans c s = (List.range' s.nextChan (callWidth c),
      ⟨s.nextChan + callWidth c⟩) := by
  cases c <;> rfl

theorem runCalls_fresh : ∀ (calls : List SftpCall) (s0 : SftpState),
    catBytes (runCalls calls s0).1 = List.range' s0.nextChan (chanCount calls)
    ∧ (runCalls calls s0).2 = ⟨s0.nextChan + chanCount calls⟩
  | [], s0 => by simp [runCalls, catBytes, chanCount]
  | c :: cs, s0 => by
    obtain ⟨ih1, ih2⟩ := runCalls_fresh cs ⟨s0.nextChan + callWidth c⟩
    have hrun : runCalls (c :: cs) s0
        = (List.range' s0.nextChan (callWidth c)
            :: (runCalls cs ⟨s0.nextChan + callWidth c⟩).1,
           (runCalls cs ⟨s0.nextChan + callWidth c⟩).2) := by
      rw [runCalls, callChans_eq]
    constructor
    · rw [hrun]
      show List.range' s0.nextChan (callWidth c)
          ++ catBytes (runCalls cs ⟨s0.nextChan + callWidth c⟩).1 = _
      rw [ih1, chanCount, ← range'_split]
    · rw [hrun, ih2, chanCount, Nat.add_assoc]


/-!
Claim theorems.
-/

/-- Claim C1, counterexample: with target directory `d` (which exists) and
name `f`, `Directory.open` creates the file at path `f` itself — nothing is
created under `d` (in particular not `d/f`), refuting "opens or creates the
file named `name` under the sink's target directory". -/
theorem directory_open_ignores_targetDir_cex :
    Directory.openFile ⟨some ["d"], none⟩ [(["d"], FNode.dir)] ["f"]
      = Except.ok (⟨some ["d"], some ["f"]⟩,
          [(["d"], FNode.dir), (["f"], FNode.file [])])
    ∧ fsGet [(["d"], FNode.dir), (["f"], FNode.file [])] ["d", "f"] = none :=
  ⟨rfl, rfl⟩

/-- Claim C1, amended: `Directory.open(name)` (in the default binary write
mode `"wb"`) opens or creates the file at exactly the path `name` as given —
the stored target directory is never prepended — truncating it, storing the
handle, touching no other path, and it fails with `OutputOpenException`
exactly when the OS-level open fails. -/
theorem directory_open_amended (st : DirectoryState) (fs : FS) (name : FPath) :
    (okB (Directory.openFile st fs name) = okB (osOpenWb fs name)
      ∧ Directory.defaultMode = "wb")
    ∧ (∀ st2 fs2, Directory.openFile st fs name = Except.ok (st2, fs2) →
        st2 = { st with fileHandle := some name }
        ∧ fsGet fs2 name = some (FNode.file [])
        ∧ ∀ q, q ≠ name → fsGet fs2 q = fsGet fs q)
    ∧ (∀ e, osOpenWb fs name = Except.error e →
        Directory.openFile st fs name
          = Except.error (OutputException.openException (Directory.openErrMsg e))) := by
  refine ⟨⟨?_, rfl⟩, ?_, ?_⟩
  · cases h : osOpenWb fs name <;> simp [Directory.openFile, h, okB]
  · intro st2 fs2 h2
    cases h : osOpenWb fs name with
    | error e => simp [Directory.openFile, h] at h2
    | ok fs2' =>
      simp only [Directory.openFile, h] at h2
      injection h2 with h3
      injection h3 with hst hfs
      subst hst
      subst hfs
      have hval := osOpenWb_ok fs name fs2' h
      subst hval
      exact ⟨rfl, fsGet_fsSet_same fs name _,
        fun q hq => fsGet_fsSet_other fs name q _ hq⟩
  · intro e he
    simp [Directory.openFile, he]

/-- Claim C2: writing a sequence of chunks to an opened entry and reading
the entry back yields exactly the bytes written, for both backends: for
`Directory`, after a successful `open` every write sequence succeeds and the
file then holds the concatenation of the chunks; for `Zip`, opening a
member (whose name is not already taken), writing and closing makes reading
that member back return the concatenation of the chunks. -/
theorem sink_roundtrip :
    (∀ (st : DirectoryState) (fs : FS) (name : FPath) (ws : List (List Nat))
        (st2 : DirectoryState) (fs2 : FS),
      Directory.openFile st fs name = Except.ok (st2, fs2) →
      ∃ fs3, Directory.writeAll st2 fs2 ws = some fs3
        ∧ fsGet fs3 name = some (FNode.file (catBytes ws)))
    ∧ (∀ (st : ZipState) (name : String) (ws : List (List Nat)),
      zfind st.members name = none →
      ∃ st2 st3, Zip.writeAll (Zip.openMember st name) ws = some st2
        ∧ Zip.closeMember st2 = some st3
        ∧ Zip.readMember st3 name = some (catBytes ws)) := by
  constructor
  · intro st fs name ws st2 fs2 h2
    cases h : osOpenWb fs name with
    | error e => simp [Directory.openFile, h] at h2
    | ok fs2' =>
      simp only [Directory.openFile, h] at h2
      injection h2 with h3
      injection h3 with hst hfs
      subst hst
      subst hfs
      have hval := osOpenWb_ok fs name fs2' h
      subst hval
      obtain ⟨fs3, hA, hB⟩ := writeAll_content ws { st with fileHandle := some name }
        name rfl (fsSet fs name (FNode.file [])) [] (fsGet_fsSet_same fs name _)
      exact ⟨fs3, hA, by simpa using hB⟩
  · intro st name ws hfind
    have hw := zipWriteAll_content ws (Zip.openMember st name) name [] rfl
    refine ⟨⟨st.members, some (name, catBytes ws)⟩, ⟨st.members ++ [(name, catBytes ws)], none⟩, ?_, rfl, ?_⟩
    · simpa [Zip.openMember] using hw
    · simpa [Zip.readMember] using zfind_append_self st.members name (catBytes ws) hfind

/-- Claim C2 witness: a concrete round trip through each backend. -/
theorem sink_roundtrip_witness :
    (∃ fs3, Directory.writeAll ⟨none, some ["f"]⟩ [(["f"], FNode.file [])]
        [[1, 2], [3]] = some fs3
      ∧ fsGet fs3 ["f"] = some (FNode.file (catBytes [[1, 2], [3]])))
    ∧ (∃ st2 st3, Zip.writeAll (Zip.openMember ⟨[], none⟩ "m") [[7], [8, 9]] = some st2
      ∧ Zip.closeMember st2 = some st3
      ∧ Zip.readMember st3 "m" = some (catBytes [[7], [8, 9]])) :=
  ⟨sink_roundtrip.1 ⟨none, none⟩ [] ["f"] [[1, 2], [3]]
      ⟨none, some ["f"]⟩ [(["f"], FNode.file [])] rfl,
    sink_roundtrip.2 ⟨[], none⟩ "m" [[7], [8, 9]] rfl⟩

/-- Claim C3, counterexample: on a transfer failure raised as `IOError` —
the exception the secure-shell library raises for SFTP status errors such as
a missing file — `copyFrom` and `copyTo` do raise: only `SSHException` is
caught, refuting "never raise on any failure of the underlying transfer". -/
theorem copy_raises_on_io_error_cex :
    Client.copyFrom wCopyIO "/remote/f" "/local/f"
      = Except.error (PyError.ioError "No such file")
    ∧ Client.copyTo wCopyIO "/local/f" "/remote/f"
      = Except.error (PyError.ioError "Permission denied") :=
  ⟨rfl, rfl⟩

/-- Claim C3, amended: `copyFrom` and `copyTo` swallow exactly the transfer
failures raised as `SSHException` — those are logged as a warning and the
call returns normally with no status — while any other failure (notably the
`IOError`s raised for SFTP status errors) propagates to the caller. -/
theorem copy_swallows_only_ssh_errors (w : RemoteWorld) (fp lp : String) :
    (w.getRes fp lp = none → Client.copyFrom w fp lp = Except.ok [])
    ∧ (∀ m, w.getRes fp lp = some (PyError.sshExc m) →
        Client.copyFrom w fp lp = Except.ok [Client.copyWarnMsg m])
    ∧ (∀ m, w.getRes fp lp = some (PyError.ioError m) →
        Client.copyFrom w fp lp = Except.error (PyError.ioError m))
    ∧ (w.putRes lp fp = none → Client.copyTo w lp fp = Except.ok [])
    ∧ (∀ m, w.putRes lp fp = some (PyError.sshExc m) →
        Client.copyTo w lp fp = Except.ok [Client.copyWarnMsg m])
    ∧ (∀ m, w.putRes lp fp = some (PyError.ioError m) →
        Client.copyTo w lp fp = Except.error (PyError.ioError m)) := by
  refine ⟨?_, ?_, ?_, ?_, ?_, ?_⟩ <;> intro h
  all_goals try intro hh
  · simp [Client.copyFrom, h]
  · simp [Client.copyFrom, hh]
  · simp [Client.copyFrom, hh]
  · simp [Client.copyTo, h]
  · simp [Client.copyTo, hh]
  · simp [Client.copyTo, hh]

/-- Claim C3 witness: a transfer failing with `SSHException` is swallowed
and returns normally, with the failure logged as a warning. -/
theorem copy_swallows_only_ssh_errors_witness :
    Client.copyFrom wCopySSH "/r" "/l"
      = Except.ok [Client.copyWarnMsg "EOF during negotiation"] :=
  (copy_swallows_only_ssh_errors wCopySSH "/r" "/l").2.1 "EOF during negotiation" rfl

/-- Claim C4: `run` fails exactly when the remote command's exit status is
non-zero, and the raised error carries the command text together with the
captured (stripped) stderr — or, when a `logFile` was supplied, the contents
of that file as delivered on the stdout of a second execution of
`cat logFile`, substituted for the stderr. -/
theorem run_error_iff_nonzero (w : RemoteWorld) (cmd : String)
    (pf lf : Option String) :
    (okB (Client.run w cmd pf lf) = true ↔ (w.exec cmd).ret = 0)
    ∧ ((w.exec cmd).ret ≠ 0 →
        Client.run w cmd pf lf = Except.error (Client.runErrMsg cmd
          (match lf with
           | some l => (w.exec ("cat " ++ l)).outRaw.trim
           | none => (w.exec cmd).errRaw.trim))) := by
  by_cases h : (w.exec cmd).ret = 0
  · refine ⟨?_, fun hne => absurd h hne⟩
    simp [Client.run, Client.execute, okB, h]
  · constructor
    · simp [Client.run, Client.execute, okB, h]
    · intro _
      cases lf <;> simp [Client.run, Client.execute, h]

/-- Claim C4 witness: `run("false")` with a log file raises the error
carrying the command text and the log file's contents. -/
theorem run_error_iff_nonzero_witness :
    Client.run wRun "false" none (some "/tmp/job.log")
      = Except.error (Client.runErrMsg "false"
          (wRun.exec ("cat " ++ "/tmp/job.log")).outRaw.trim) :=
  (run_error_iff_nonzero wRun "false" none (some "/tmp/job.log")).2 (by decide)

/-- Claim C5: when the command exits with status zero and a `pidFile` was
supplied, the returned `processInfo.pid` is the trimmed stdout of a second
execution of `cat pidFile` — the trimmed remote contents of that file;
with no `pidFile`, `pid` is `none`. -/
theorem run_pid_from_pidfile (w : RemoteWorld) (cmd pf : String)
    (lf : Option String) (h : (w.exec cmd).ret = 0) :
    Client.run w cmd (some pf) lf
      = Except.ok ⟨some ((w.exec ("cat " ++ pf)).outRaw.trim), lf,
          (w.exec cmd).errRaw.trim, (w.exec cmd).outRaw.trim⟩
    ∧ Client.run w cmd none lf
      = Except.ok ⟨none, lf, (w.exec cmd).errRaw.trim, (w.exec cmd).outRaw.trim⟩ := by
  constructor <;> simp [Client.run, Client.execute, h]

/-- Claim C5 witness: a concrete successful command whose pid file holds
`" 4242 "`; the returned pid is its trimmed contents, and without a pid
file the pid is `none`. -/
theorem run_pid_from_pidfile_witness :
    Client.run wRun "start" (some "/tmp/job.pid") none
      = Except.ok ⟨some ((wRun.exec ("cat " ++ "/tmp/job.pid")).outRaw.trim), none,
          (wRun.exec "start").errRaw.trim, (wRun.exec "start").outRaw.trim⟩
    ∧ Client.run wRun "start" none none
      = Except.ok ⟨none, none, (wRun.exec "start").errRaw.trim,
          (wRun.exec "start").outRaw.trim⟩ :=
  run_pid_from_pidfile wRun "start" "/tmp/job.pid" none (by decide)

/-- Claim C6, counterexample: a stat failure raised as `SSHException`
(a dropped session) is not caught — `exists` raises instead of returning
`false`, refuting "exists never raises". -/
theorem exists_raises_on_ssh_error_cex :
    Client.existsRemote wStatSSH "/etc/hostname"
      = Except.error (PyError.sshExc "Server connection dropped") :=
  rfl

/-- Claim C6, amended: `exists` returns `true` exactly when the remote stat
succeeds and collapses every failure raised as `IOError` into `false`,
indistinguishable from a genuine absence, but a failure of any other kind
(e.g. a secure-shell session error) is not caught and propagates. -/
theorem exists_collapses_only_io_errors (w : RemoteWorld) (fp : String) :
    (w.statRes fp = none → Client.existsRemote w fp = Except.ok true)
    ∧ (∀ m, w.statRes fp = some (PyError.ioError m) →
        Client.existsRemote w fp = Except.ok false)
    ∧ (∀ m, w.statRes fp = some (PyError.sshExc m) →
        Client.existsRemote w fp = Except.error (PyError.sshExc m)) := by
  refine ⟨?_, ?_, ?_⟩ <;> intro h
  all_goals try intro hh
  · simp [Client.existsRemote, h]
  · simp [Client.existsRemote, hh]
  · simp [Client.existsRemote, hh]

/-- Claim C6 witness: an `IOError` during the stat is collapsed into
`false`. -/
theorem exists_collapses_only_io_errors_witness :
    Client.existsRemote wCopySSH "/x" = Except.ok false :=
  (exists_collapses_only_io_errors wCopySSH "/x").2.1 "nf" rfl

/-- Claim C7: the constant the source passes as the library connect call's
`timeout` argument is `5000`; the library defines that parameter in
seconds, so the bounded timeout is 5000 seconds (over 83 minutes), not
approximately 5 seconds. -/
theorem connect_timeout_constant :
    Client.connectTimeout = 5000 ∧ Client.connectTimeout ≠ 5 := by
  decide

/-- Claim C8, counterexample: the archive (`Zip`) backend defines no
`flush` method at all, refuting "both backend variants expose a flush
operation". -/
theorem zip_has_no_flush_cex :
    Zip.methods.contains Method.flushM = false :=
  rfl

/-- Claim C8, amended: only the `Directory` backend exposes `flush`; it
delegates to the file handle's flush with no exception handling, so the
underlying outcome — success or failure — reaches the caller unchanged
(never failing silently).  The `Zip` backend exposes no flush operation,
so invoking flush on it is an attribute error, not a silent no-op. -/
theorem flush_only_directory_backend :
    Directory.methods.contains Method.flushM = true
    ∧ Zip.methods.contains Method.flushM = false
    ∧ ∀ r : Except String Unit, Directory.flushWrapper r = r :=
  ⟨rfl, rfl, fun _ => rfl⟩

/-- Claim C9: across any sequence of sub-channel-using operations
(`exists`, `copyFrom`, `copyTo`, `disconnect`), the sub-channels derived
are exactly the consecutive run of fresh identifiers starting at the
initial state — each call derives brand-new channels and no identifier ever
recurs, so none is stored or reused; the client instance stores no `sftp`
attribute; and `disconnect` itself derives two fresh sub-channels (one for
its truth test, one that it closes), so the channel it closes was never
used by an earlier transfer. -/
theorem sftp_channels_always_fresh :
    (∀ (calls : List SftpCall) (s0 : SftpState),
      catBytes (runCalls calls s0).1 = List.range' s0.nextChan (chanCount calls))
    ∧ Client.instanceFields.contains "sftp" = false
    ∧ (∀ s : SftpState, (callChans SftpCall.disconnectCall s).1
        = [s.nextChan, s.nextChan + 1]) :=
  ⟨fun calls s0 => (runCalls_fresh calls s0).1, rfl, fun _ => rfl⟩

/-- Claim C10: constructing the `Directory` sink with target `None` skips
the directory check and creation entirely — the filesystem is returned
untouched and construction succeeds, so no `OutputCreateDirectory` error
can be raised in that case. -/
theorem init_none_skips_makedir (fs : FS) :
    Directory.init none fs = Except.ok (⟨none, none⟩, fs) :=
  rfl
